import Mathlib

/-!
Verification of the per-frame simulation core of the Tesla Outrun driving
game (source: `src/src/lib/TeslaOutrun.svelte`).  All numeric state is
embedded as exact rationals; the browser randomness consumed by the obstacle
spawner is passed in as explicit parameters.
-/

namespace Outrun

/-! ### Tuning constants (script-level bindings of the source) -/

def maxSpeed : ℚ := 500
def acceleration : ℚ := 2
def brakeForce : ℚ := 5
def deceleration : ℚ := 95 / 100
def lanePositions : List ℚ := [-4, 0, 4]
def roadLength : ℚ := 2000
def segmentLength : ℚ := 20
def cameraDistance : ℚ := -15
def obstacleInterval : ℚ := 2
def jumpGravity : ℚ := 1 / 100
def maxJumpHeight : ℚ := 5
def jumpInitialVelocity : ℚ := 15
def initialLives : ℤ := 3

/-- Lookup of the lateral offset of a lane index (`lanePositions[lane]`). -/
def lanePos (i : ℕ) : ℚ := lanePositions.getD i 0

/-! ### Data model -/

/-- The player car: position plus the collision extents stored in
`player.userData` (`width = 3`, `height = 6`, the latter used as depth). -/
structure Player where
  x : ℚ
  y : ℚ
  z : ℚ
  width : ℚ
  height : ℚ
  deriving DecidableEq

/-- A live obstacle: the `userData` category flags (`isCar`, `isBarrier`,
`isRocket`), the `overtaken` latch, world position and the collision extents
stored in `userData` (`width`, `height`, the latter used as depth). -/
structure Obstacle where
  isCar : Bool
  isBarrier : Bool
  isRocket : Bool
  overtaken : Bool
  x : ℚ
  y : ℚ
  z : ℚ
  width : ℚ
  height : ℚ
  deriving DecidableEq

/-- The jump sub-state (`isJumping`, `jumpHeight`, `jumpVelocity`). -/
structure JumpState where
  isJumping : Bool
  jumpHeight : ℚ
  jumpVelocity : ℚ
  deriving DecidableEq

/-- The mutable game state of the script: session flags, kinematics,
score-keeping, the live obstacle list and the z coordinates of the scenery
entities (road segments, stripes, trees, buildings). -/
structure GameState where
  score : ℚ
  speed : ℚ
  gameActive : Bool
  isPaused : Bool
  lane : ℕ
  elapsedTime : ℚ
  lastObstacleTime : ℚ
  carsOvertaken : ℕ
  lives : ℤ
  isJumping : Bool
  jumpHeight : ℚ
  jumpVelocity : ℚ
  player : Player
  obstacles : List Obstacle
  roadSegments : List ℚ
  roadStripes : List ℚ
  trees : List ℚ
  buildings : List ℚ
  deriving DecidableEq

/-- The session states of the state machine described by the spec, as they
are observable in the `gameActive` / `isPaused` flags of the code. -/
inductive SessionState where
  | Running : SessionState
  | Paused : SessionState
  | GameOver : SessionState
  deriving DecidableEq

/-- Map the flags of the code to the session state: `gameActive` with the
pause flag clear is `Running`, `gameActive` with the pause flag set is
`Paused` (the frame update does nothing but advance time), and
`gameActive = false` after a session is `GameOver`. -/
def sessionState (s : GameState) : SessionState :=
  if s.gameActive then (if s.isPaused then .Paused else .Running) else .GameOver

/-! ### Vehicle kinematics (`updateGame` lines 256-301) -/

/-- Speed update: auto-accelerate below `0.4 × maxSpeed`, multiply by the
deceleration factor, clamp into `[0, maxSpeed]`. -/
def updSpeed (s : GameState) : GameState :=
  let v0 := if s.speed < maxSpeed * (4 / 10) then s.speed + acceleration else s.speed
  let v1 := v0 * deceleration
  { s with speed := max 0 (min maxSpeed v1) }

/-- One frame of jump physics (lines 274-290): explicit Euler
(`jumpHeight += jumpVelocity; jumpVelocity -= jumpGravity`), then clamp at
`maxJumpHeight` zeroing the upward velocity, and landing (`jumpHeight ≤ 0`)
clears the flag and zeroes both the height and the velocity. -/
def jumpTick (j : JumpState) : JumpState :=
  if j.isJumping then
    let h0 := j.jumpHeight + j.jumpVelocity
    let v0 := j.jumpVelocity - jumpGravity
    let h1 := if h0 > maxJumpHeight then maxJumpHeight else h0
    let v1 := if h0 > maxJumpHeight then 0 else v0
    if h1 ≤ 0 then ⟨false, 0, 0⟩ else ⟨true, h1, v1⟩
  else j

/-- Starting a jump (`onKeyDown`, space / `j`): a no-op while already
jumping, otherwise set the flag, height `0` and the initial upward
velocity. -/
def startJump (j : JumpState) : JumpState :=
  if j.isJumping then j else ⟨true, 0, jumpInitialVelocity⟩

/-- The jump block of `updateGame`: run the physics when jumping and set the
player `y` from the resulting height; otherwise keep the player on the
ground. -/
def updJump (s : GameState) : GameState :=
  let j := jumpTick ⟨s.isJumping, s.jumpHeight, s.jumpVelocity⟩
  { s with
    isJumping := j.isJumping
    jumpHeight := j.jumpHeight
    jumpVelocity := j.jumpVelocity
    player := { s.player with y := if s.isJumping then j.jumpHeight else 0 } }

/-- Lane easing (line 301): move the player 10% of the way towards the
lateral offset of the target lane. -/
def updLane (s : GameState) : GameState :=
  { s with
    player := { s.player with
      x := s.player.x + (lanePos s.lane - s.player.x) * (1 / 10) } }

/-! ### Collision detection (`checkCollisions` / `handleCollision`) -/

/-- Axis-aligned box overlap between the player and one obstacle
(lines 483-509): overlap on x, z and y, with both boxes two units tall. -/
def collides (p : Player) (o : Obstacle) : Bool :=
  decide (p.x + p.width / 2 > o.x - o.width / 2) &&
  decide (p.x - p.width / 2 < o.x + o.width / 2) &&
  decide (p.z + p.height / 2 > o.z - o.height / 2) &&
  decide (p.z - p.height / 2 < o.z + o.height / 2) &&
  decide (p.y + 2 > o.y) &&
  decide (p.y < o.y + 2)

/-- Scan the obstacle list in spawn order for the first collision; on a hit
return the list with exactly that obstacle removed (the splice performed by
`handleCollision`), else `none`. -/
def scanCollide (p : Player) : List Obstacle → Option (List Obstacle)
  | [] => none
  | o :: rest =>
    if collides p o then some rest
    else (scanCollide p rest).map (fun l => o :: l)

/-- Effect of `handleCollision` on the simulation state: the colliding
obstacle is already removed (`rest`), a life is lost, the game is paused,
and with no lives left `gameOver()` clears `gameActive`. -/
def handleCollision (rest : List Obstacle) (s : GameState) : GameState :=
  let l := s.lives - 1
  { s with
    obstacles := rest
    lives := l
    isPaused := true
    gameActive := if l ≤ 0 then false else s.gameActive }

/-- Full `checkCollisions`: skip entirely while jumping above height 2,
otherwise process at most the first overlapping obstacle. -/
def checkCollisions (s : GameState) : GameState :=
  if s.isJumping = true ∧ s.jumpHeight > 2 then s
  else
    match scanCollide s.player s.obstacles with
    | none => s
    | some rest => handleCollision rest s

/-! ### Score (`updateScore`) -/

/-- The overtaking condition of `updateScore` (lines 743-745): a car or a
rocket, not yet credited, whose z has fallen below the z of the player. -/
def overtakeHit (pz : ℚ) (o : Obstacle) : Bool :=
  (o.isCar || o.isRocket) && !o.overtaken && decide (o.z < pz)

/-- The overtaking loop of `updateScore`: latch `overtaken` on every hit and
count the hits (each worth 100 points and one `carsOvertaken`). -/
def overtakeScan (pz : ℚ) : List Obstacle → List Obstacle × ℕ
  | [] => ([], 0)
  | o :: rest =>
    let t := overtakeScan pz rest
    if overtakeHit pz o then ({ o with overtaken := true } :: t.1, t.2 + 1)
    else (o :: t.1, t.2)

/-- Full `updateScore`: distance score `dt × speed / 10` plus 100 points per
newly overtaken obstacle, incrementing `carsOvertaken` and latching the
flags. -/
def updateScore (dt : ℚ) (s : GameState) : GameState :=
  let t := overtakeScan s.player.z s.obstacles
  { s with
    score := s.score + dt * s.speed / 10 + 100 * t.2
    obstacles := t.1
    carsOvertaken := s.carsOvertaken + t.2 }

/-! ### Spawner (`spawnObstacle`, spawn gate at line 339) -/

/-- The spawn gate of `updateGame` (line 339): fire when the time since the
last spawn exceeds
`obstacleInterval - (speed / maxSpeed) × (obstacleInterval - 0.5)`. -/
def spawnDue (elapsed lastT sp : ℚ) : Bool :=
  decide (elapsed - lastT > obstacleInterval - sp / maxSpeed * (obstacleInterval - 1 / 2))

/-- The floor of the inter-spawn gap that the gate of the code actually
implements: at `speed = maxSpeed` the threshold is `0.5` seconds. -/
def minIntervalCode : ℚ := 1 / 2

/-- Modelled from the claim wording of C4 (refinement comparison): the gate
with `minInterval = obstacleInterval - 0.5`, i.e. a threshold of
`obstacleInterval - (speed / maxSpeed) × (obstacleInterval - minInterval)`
with that `minInterval`. -/
def minIntervalClaimed : ℚ := obstacleInterval - 1 / 2

/-- Modelled from the claim wording of C4 (refinement comparison): the spawn
gate as the claim states it, using `minIntervalClaimed`. -/
def spawnDueClaimed (elapsed lastT sp : ℚ) : Bool :=
  decide (elapsed - lastT >
    obstacleInterval - sp / maxSpeed * (obstacleInterval - minIntervalClaimed))

/-- Behaviour of `spawnObstacle`: the category is picked from the type roll
(`< 0.7` car, `< 0.85` barrier, else rocket); the `overtaken` latch starts
false (cars and rockets set it explicitly, the absent field of a barrier
reads as false); every obstacle is placed at the lateral offset of the
rolled lane, `y = 1`, `z = roadLength / 2`, and gets collision extents
`width = 3`, `height = 5` regardless of category. -/
def spawnObstacle (laneRoll : ℕ) (typeRoll : ℚ) : Obstacle :=
  let base : Obstacle :=
    if typeRoll < 7 / 10 then
      ⟨true, false, false, false, 0, 0, 0, 0, 0⟩
    else if typeRoll < 85 / 100 then
      ⟨false, true, false, false, 0, 0, 0, 0, 0⟩
    else
      ⟨false, false, true, false, 0, 0, 0, 0, 0⟩
  { base with
    x := lanePos laneRoll
    y := 1
    z := roadLength / 2
    width := 3
    height := 5 }

/-! ### World scrolling (`updateGame` lines 323-393) -/

/-- Road-segment recycle step: move back by `d`, and once behind
`cameraDistance - segmentLength / 2` add exactly `roadLength`. -/
def segStep (d z : ℚ) : ℚ :=
  let z1 := z - d
  if z1 < cameraDistance - segmentLength / 2 then z1 + roadLength else z1

/-- Road-stripe recycle step: move back by `d`, and once behind
`cameraDistance - 20` add exactly `roadLength`. -/
def stripeStep (d z : ℚ) : ℚ :=
  let z1 := z - d
  if z1 < cameraDistance - 20 then z1 + roadLength else z1

/-- Tree recycle step: move back by `d`, and once behind
`cameraDistance - 20` add `roadLength + (cameraDistance - z)`, i.e. reset to
the fixed position `roadLength + cameraDistance`. -/
def treeStep (d z : ℚ) : ℚ :=
  let z1 := z - d
  if z1 < cameraDistance - 20 then z1 + (roadLength + (cameraDistance - z1)) else z1

/-- Building recycle step: identical to the tree rule. -/
def buildingStep (d z : ℚ) : ℚ :=
  let z1 := z - d
  if z1 < cameraDistance - 20 then z1 + (roadLength + (cameraDistance - z1)) else z1

/-- The world-movement tail of `updateGame`: move and cull obstacles, run
the spawn gate, then move/recycle segments, stripes, trees and buildings. -/
def moveWorld (dt : ℚ) (laneRoll : ℕ) (typeRoll : ℚ) (s : GameState) : GameState :=
  let d := s.speed * dt
  let obs := (s.obstacles.map (fun o => { o with z := o.z - d })).filter
    (fun o => !decide (o.z < cameraDistance))
  let s1 := { s with obstacles := obs }
  let s2 :=
    if spawnDue s1.elapsedTime s1.lastObstacleTime s1.speed then
      { s1 with
        obstacles := s1.obstacles ++ [spawnObstacle laneRoll typeRoll]
        lastObstacleTime := s1.elapsedTime }
    else s1
  { s2 with
    roadSegments := s2.roadSegments.map (segStep d)
    roadStripes := s2.roadStripes.map (stripeStep d)
    trees := s2.trees.map (treeStep d)
    buildings := s2.buildings.map (buildingStep d) }

/-! ### The frame update and the session commands -/

/-- One frame of `updateGame`: advance `elapsedTime`, return immediately if
paused, otherwise run speed, jump, lane easing, collisions, score and the
world scroll in the order of the source.  The two `Math.random()` draws a
spawn would consume are the `laneRoll` / `typeRoll` parameters. -/
def updateGame (dt : ℚ) (laneRoll : ℕ) (typeRoll : ℚ) (s : GameState) : GameState :=
  let s1 := { s with elapsedTime := s.elapsedTime + dt }
  if s1.isPaused then s1
  else
    moveWorld dt laneRoll typeRoll
      (updateScore dt (checkCollisions (updLane (updJump (updSpeed s1)))))

/-- Effect of `startGame`: activate the session and reset speed, score,
overtake count, clocks and lives. -/
def startGame (s : GameState) : GameState :=
  { s with
    gameActive := true
    speed := 0
    score := 0
    carsOvertaken := 0
    elapsedTime := 0
    lastObstacleTime := 0
    lives := initialLives }

/-- Effect of `restartGame`: clear the obstacles, reset the player to the
origin and the center lane, then `startGame`. -/
def restartGame (s : GameState) : GameState :=
  startGame
    { s with
      obstacles := []
      player := { s.player with x := 0, y := 0, z := 0 }
      lane := 1 }

/-! ### Per-obstacle lifetime model for the overtake latch -/

/-- View of a sequence of frames from one obstacle: each frame supplies the
player z and the next z of the obstacle (its movement), the overtaking loop
is applied, and the bonus awards are counted. -/
def lifeRun (o : Obstacle) : List (ℚ × ℚ) → ℕ
  | [] => 0
  | f :: rest =>
    let hit := overtakeHit f.1 o
    let o1 := if hit then { o with overtaken := true } else o
    (if hit then 1 else 0) + lifeRun { o1 with z := f.2 } rest

/-! ### Concrete states used by the witnesses -/

/-- A player at the origin with the collision extents of the source. -/
def basePlayer : Player := ⟨0, 0, 0, 3, 6⟩

/-- A car obstacle overlapping the player at the origin. -/
def carAt0 : Obstacle := ⟨true, false, false, false, 0, 1, 0, 3, 5⟩

/-- A barrier obstacle overlapping the player at the origin. -/
def barrierAt0 : Obstacle := ⟨false, true, false, false, 0, 1, 0, 3, 5⟩

/-- A rocket obstacle overlapping the player at the origin. -/
def rocketAt0 : Obstacle := ⟨false, false, true, false, 0, 1, 0, 3, 5⟩

/-- A freshly started running state. -/
def baseState : GameState where
  score := 0
  speed := 0
  gameActive := true
  isPaused := false
  lane := 1
  elapsedTime := 0
  lastObstacleTime := 0
  carsOvertaken := 0
  lives := 3
  isJumping := false
  jumpHeight := 0
  jumpVelocity := 0
  player := basePlayer
  obstacles := []
  roadSegments := [0]
  roadStripes := [0]
  trees := [50]
  buildings := [60]

/-- A running state in mid-jump above the immunity threshold, with an
overlapping obstacle of every category. -/
def jumpDemoState : GameState :=
  { baseState with
    isJumping := true
    jumpHeight := 3
    obstacles := [carAt0, barrierAt0, rocketAt0] }

/-- A running state on the last life with an overlapping car. -/
def hitState : GameState :=
  { baseState with lives := 1, obstacles := [carAt0] }

/-- A paused state. -/
def pausedState : GameState :=
  { baseState with
    isPaused := true
    speed := 100
    score := 7
    obstacles := [carAt0]
    elapsedTime := 5 }

/-- The state left behind by a fatal collision: `gameOver()` cleared
`gameActive` while `handleCollision` had set the pause flag, which nothing
clears before a restart. -/
def gameOverState : GameState :=
  { baseState with
    gameActive := false
    isPaused := true
    lives := 0
    score := 42
    lane := 0
    elapsedTime := 9
    carsOvertaken := 2
    obstacles := [carAt0] }

/-! ### Shared helper lemmas -/

theorem updSpeed_speed (s : GameState) :
    (updSpeed s).speed =
      max 0 (min maxSpeed
        ((if s.speed < maxSpeed * (4 / 10) then s.speed + acceleration else s.speed) *
          deceleration)) := rfl

theorem updJump_speed (s : GameState) : (updJump s).speed = s.speed := rfl

theorem updLane_speed (s : GameState) : (updLane s).speed = s.speed := rfl

theorem checkCollisions_speed (s : GameState) : (checkCollisions s).speed = s.speed := by
  unfold checkCollisions
  split
  · rfl
  · split <;> rfl

theorem updateScore_speed (dt : ℚ) (s : GameState) : (updateScore dt s).speed = s.speed := rfl

theorem moveWorld_speed (dt : ℚ) (laneRoll : ℕ) (typeRoll : ℚ) (s : GameState) :
    (moveWorld dt laneRoll typeRoll s).speed = s.speed := by
  unfold moveWorld
  dsimp only
  split <;> rfl

theorem scanCollide_split (p : Player) :
    ∀ (obs rest : List Obstacle), scanCollide p obs = some rest →
      ∃ l1 o l2, obs = l1 ++ o :: l2 ∧ collides p o = true ∧ rest = l1 ++ l2 := by
  intro obs
  induction obs with
  | nil => intro rest h; simp [scanCollide] at h
  | cons o os ih =>
    intro rest h
    by_cases hc : collides p o = true
    · refine ⟨[], o, os, by simp, hc, ?_⟩
      simp [scanCollide, hc] at h
      simp [h]
    · simp only [scanCollide, hc, if_false, Bool.false_eq_true, if_neg,
        Option.map_eq_some'] at h
      obtain ⟨r0, hr0, hrest⟩ := h
      obtain ⟨l1, ob, l2, hobs, hcol, hr⟩ := ih r0 hr0
      exact ⟨o :: l1, ob, l2, by simp [hobs], hcol, by simp [← hrest, hr]⟩

theorem lifeRun_of_overtaken :
    ∀ (frames : List (ℚ × ℚ)) (o : Obstacle), o.overtaken = true → lifeRun o frames = 0 := by
  intro frames
  induction frames with
  | nil => intro o _; rfl
  | cons f rest ih =>
    intro o h
    have hhit : overtakeHit f.1 o = false := by simp [overtakeHit, h]
    simp only [lifeRun, hhit, Bool.false_eq_true, if_false, if_neg]
    have : ({ o with z := f.2 } : Obstacle).overtaken = true := h
    simpa using ih _ this

theorem lifeRun_le_one :
    ∀ (frames : List (ℚ × ℚ)) (o : Obstacle), lifeRun o frames ≤ 1 := by
  intro frames
  induction frames with
  | nil => intro o; exact Nat.zero_le 1
  | cons f rest ih =>
    intro o
    by_cases hhit : overtakeHit f.1 o = true
    · simp only [lifeRun, hhit, if_true]
      have hz : ({ { o with overtaken := true } with z := f.2 } : Obstacle).overtaken = true := rfl
      rw [lifeRun_of_overtaken rest _ hz]
    · simp only [lifeRun, hhit, Bool.false_eq_true, if_false, if_neg]
      simpa using ih _

/-! ### Claim C1 -/

/-- C1 (counterexample): a tree at z = −35 moved back by 1 crosses the
recycle threshold, and its new z is the fixed position 1985, which differs
from old z + roadLength under either reading of the old z (pre-move −35 or
post-move −36). -/
theorem C1_counterexample :
    ((-35 : ℚ) - 1 < cameraDistance - 20) ∧
    treeStep 1 (-35) = 1985 ∧
    treeStep 1 (-35) ≠ (-35 : ℚ) - 1 + roadLength ∧
    treeStep 1 (-35) ≠ (-35 : ℚ) + roadLength := by
  refine ⟨by norm_num [cameraDistance], ?_, ?_, ?_⟩ <;>
    norm_num [treeStep, cameraDistance, roadLength]

/-- C1 (amended): on every recycling event during a frame update, road
segments and road stripes have exactly `roadLength` added to their moved z,
while trees and buildings are instead reset to the fixed position
`roadLength + cameraDistance`. -/
theorem C1_scenery_recycle (d z : ℚ) :
    (z - d < cameraDistance - segmentLength / 2 → segStep d z = z - d + roadLength) ∧
    (z - d < cameraDistance - 20 → stripeStep d z = z - d + roadLength) ∧
    (z - d < cameraDistance - 20 → treeStep d z = roadLength + cameraDistance) ∧
    (z - d < cameraDistance - 20 → buildingStep d z = roadLength + cameraDistance) := by
  refine ⟨fun h => ?_, fun h => ?_, fun h => ?_, fun h => ?_⟩
  · simp [segStep, h]
  · simp [stripeStep, h]
  · simp only [treeStep, if_pos h]; ring
  · simp only [buildingStep, if_pos h]; ring

/-- Witness for C1 at d = 1, z = −100 (all four recycle conditions hold). -/
theorem C1_scenery_recycle_witness :
    segStep 1 (-100) = (-100 : ℚ) - 1 + roadLength ∧
    stripeStep 1 (-100) = (-100 : ℚ) - 1 + roadLength ∧
    treeStep 1 (-100) = roadLength + cameraDistance ∧
    buildingStep 1 (-100) = roadLength + cameraDistance :=
  ⟨(C1_scenery_recycle 1 (-100)).1 (by norm_num [cameraDistance, segmentLength]),
   (C1_scenery_recycle 1 (-100)).2.1 (by norm_num [cameraDistance]),
   (C1_scenery_recycle 1 (-100)).2.2.1 (by norm_num [cameraDistance]),
   (C1_scenery_recycle 1 (-100)).2.2.2 (by norm_num [cameraDistance])⟩

/-! ### Claim C2 -/

/-- C2: for every starting speed in [0, maxSpeed] and every dt ≥ 0, after
one frame update while the session is Running, the speed of the vehicle
lies in [0, maxSpeed]. -/
theorem C2_speed_clamp (s : GameState) (dt : ℚ) (laneRoll : ℕ) (typeRoll : ℚ)
    (hact : s.gameActive = true) (hp : s.isPaused = false)
    (h0 : 0 ≤ s.speed) (h1 : s.speed ≤ maxSpeed) (hdt : 0 ≤ dt) :
    0 ≤ (updateGame dt laneRoll typeRoll s).speed ∧
    (updateGame dt laneRoll typeRoll s).speed ≤ maxSpeed := by
  have hup : updateGame dt laneRoll typeRoll s =
      moveWorld dt laneRoll typeRoll
        (updateScore dt (checkCollisions (updLane (updJump
          (updSpeed { s with elapsedTime := s.elapsedTime + dt }))))) := by
    simp [updateGame, hp]
  rw [hup, moveWorld_speed, updateScore_speed, checkCollisions_speed, updLane_speed,
    updJump_speed, updSpeed_speed]
  constructor
  · exact le_max_left 0 _
  · exact max_le (by norm_num [maxSpeed]) (min_le_left _ _)

/-- Witness for C2 on the fresh running state with dt = 1. -/
theorem C2_speed_clamp_witness :
    0 ≤ (updateGame 1 0 0 baseState).speed ∧
    (updateGame 1 0 0 baseState).speed ≤ maxSpeed :=
  C2_speed_clamp baseState 1 0 0 rfl rfl (by norm_num [baseState])
    (by norm_num [baseState, maxSpeed]) (by norm_num)

/-! ### Claim C3 -/

/-- C3: whenever the vehicle is jumping with vertical offset greater than 2,
the collision check is a complete no-op — no obstacle is removed, lives are
not decremented, and the whole state (hence the session state) is
unchanged, for any set of live obstacles of any category. -/
theorem C3_jump_immunity (s : GameState) (hj : s.isJumping = true) (hh : s.jumpHeight > 2) :
    checkCollisions s = s := by
  unfold checkCollisions
  rw [if_pos ⟨hj, hh⟩]

/-- Witness for C3: a mid-jump state at height 3 with an overlapping car,
barrier and rocket is untouched by the collision check. -/
theorem C3_jump_immunity_witness : checkCollisions jumpDemoState = jumpDemoState :=
  C3_jump_immunity jumpDemoState rfl (by norm_num [jumpDemoState, baseState])

/-! ### Claim C4 -/

/-- C4 (counterexample): at full speed with one second since the last spawn,
the gate of the code fires but the gate of the claim (with
`minInterval = obstacleInterval − 0.5`) does not. -/
theorem C4_counterexample :
    spawnDue 1 0 maxSpeed = true ∧ spawnDueClaimed 1 0 maxSpeed = false := by
  constructor
  · simp only [spawnDue, decide_eq_true_eq]
    norm_num [obstacleInterval, maxSpeed]
  · simp only [spawnDueClaimed, decide_eq_false_iff_not]
    norm_num [obstacleInterval, maxSpeed, minIntervalClaimed]

/-- C4 (amended): the spawner fires exactly when
`elapsedTime − lastSpawnTime > obstacleInterval − (speed/maxSpeed) ×
(obstacleInterval − minInterval)` with `minInterval = 0.5`, so the
inter-spawn threshold shrinks linearly from `obstacleInterval` at speed 0
down to 0.5 seconds at `speed = maxSpeed`. -/
theorem C4_spawn_gate (elapsed lastT sp : ℚ) :
    (spawnDue elapsed lastT sp = true ↔
      elapsed - lastT >
        obstacleInterval - sp / maxSpeed * (obstacleInterval - minIntervalCode)) ∧
    (spawnDue elapsed lastT 0 = true ↔ elapsed - lastT > obstacleInterval) ∧
    (spawnDue elapsed lastT maxSpeed = true ↔ elapsed - lastT > minIntervalCode) := by
  refine ⟨?_, ?_, ?_⟩ <;>
    simp only [spawnDue, decide_eq_true_eq, minIntervalCode] <;>
    norm_num [obstacleInterval, maxSpeed]

/-! ### Claim C5 -/

/-- C5: when a collision is processed while lives equals 1, the colliding
obstacle is removed from the live set, lives is decremented to 0, and the
session transitions to GameOver, not to Paused. -/
theorem C5_fatal_collision (s : GameState) (hact : s.gameActive = true) (hl : s.lives = 1)
    (hnj : ¬(s.isJumping = true ∧ s.jumpHeight > 2))
    (rest : List Obstacle) (hscan : scanCollide s.player s.obstacles = some rest) :
    (checkCollisions s).obstacles = rest ∧
    (checkCollisions s).lives = 0 ∧
    sessionState (checkCollisions s) = SessionState.GameOver ∧
    sessionState (checkCollisions s) ≠ SessionState.Paused ∧
    ∃ l1 o l2, s.obstacles = l1 ++ o :: l2 ∧ collides s.player o = true ∧ rest = l1 ++ l2 := by
  have hcc : checkCollisions s = handleCollision rest s := by
    unfold checkCollisions
    rw [if_neg hnj, hscan]
  refine ⟨?_, ?_, ?_, ?_, scanCollide_split s.player s.obstacles rest hscan⟩
  · rw [hcc]; rfl
  · rw [hcc]; simp [handleCollision, hl]
  · rw [hcc]; simp [handleCollision, sessionState, hl]
  · rw [hcc]; simp [handleCollision, sessionState, hl]

/-- Witness for C5: the last-life state with one overlapping car ends at
lives 0 in GameOver. -/
theorem C5_fatal_collision_witness :
    (checkCollisions hitState).obstacles = [] ∧
    (checkCollisions hitState).lives = 0 ∧
    sessionState (checkCollisions hitState) = SessionState.GameOver ∧
    sessionState (checkCollisions hitState) ≠ SessionState.Paused ∧
    ∃ l1 o l2, hitState.obstacles = l1 ++ o :: l2 ∧ collides hitState.player o = true ∧
      ([] : List Obstacle) = l1 ++ l2 :=
  C5_fatal_collision hitState rfl rfl (by norm_num [hitState, baseState]) []
    (by norm_num [hitState, baseState, scanCollide, collides, basePlayer, carAt0])

/-! ### Claim C6 -/

/-- C6: over any obstacle lifetime the overtaken latch fires at most once
(never if already set), a hit requires an overtakeable category (car or
rocket, with the latch clear and z below the player z), and a spawned
barrier can never register a hit. -/
theorem C6_overtake_latch (o : Obstacle) (frames : List (ℚ × ℚ)) :
    lifeRun o frames ≤ 1 ∧
    (o.overtaken = true → lifeRun o frames = 0) ∧
    (∀ pz, overtakeHit pz o = true →
      (o.isCar = true ∨ o.isRocket = true) ∧ o.overtaken = false ∧ o.z < pz) ∧
    (∀ pz laneRoll typeRoll, (spawnObstacle laneRoll typeRoll).isBarrier = true →
      overtakeHit pz (spawnObstacle laneRoll typeRoll) = false) := by
  refine ⟨lifeRun_le_one frames o, fun h => lifeRun_of_overtaken frames o h, ?_, ?_⟩
  · intro pz h
    simp only [overtakeHit, Bool.and_eq_true, Bool.or_eq_true, Bool.not_eq_true',
      decide_eq_true_eq] at h
    exact ⟨h.1.1, h.1.2, h.2⟩
  · intro pz laneRoll typeRoll h
    by_cases h1 : typeRoll < 7 / 10
    · simp [spawnObstacle, h1] at h
    · by_cases h2 : typeRoll < 85 / 100
      · simp [spawnObstacle, h1, h2, overtakeHit]
      · simp [spawnObstacle, h1, h2] at h

/-- Witness for C6 on a concrete car and a concrete spawned barrier. -/
theorem C6_overtake_latch_witness :
    lifeRun carAt0 [(1, -5)] ≤ 1 ∧
    lifeRun { carAt0 with overtaken := true } [(1, -5)] = 0 ∧
    ((carAt0.isCar = true ∨ carAt0.isRocket = true) ∧ carAt0.overtaken = false ∧
      carAt0.z < 1) ∧
    overtakeHit 0 (spawnObstacle 0 (8 / 10)) = false :=
  ⟨(C6_overtake_latch carAt0 [(1, -5)]).1,
   (C6_overtake_latch { carAt0 with overtaken := true } [(1, -5)]).2.1 rfl,
   (C6_overtake_latch carAt0 []).2.2.1 1 (by norm_num [overtakeHit, carAt0]),
   (C6_overtake_latch carAt0 []).2.2.2 0 0 (8 / 10) (by norm_num [spawnObstacle])⟩

/-! ### Claim C7 -/

/-- C7 (counterexample): from the state a fatal collision leaves behind
(GameOver with the pause flag still set), restarting yields a session whose
observable state is Paused, not Running — the next frame update only
advances the clock. -/
theorem C7_counterexample :
    sessionState gameOverState = SessionState.GameOver ∧
    sessionState (restartGame gameOverState) = SessionState.Paused ∧
    sessionState (restartGame gameOverState) ≠ SessionState.Running ∧
    updateGame 1 0 0 (restartGame gameOverState) =
      { restartGame gameOverState with
        elapsedTime := (restartGame gameOverState).elapsedTime + 1 } := by
  refine ⟨rfl, rfl, ?_, ?_⟩
  · rw [show sessionState (restartGame gameOverState) = SessionState.Paused from rfl]
    exact fun h => SessionState.noConfusion h
  have hp : (restartGame gameOverState).isPaused = true := rfl
  simp [updateGame, hp]

/-- C7 (amended): restarting performs the full state reset — obstacles
cleared, player at the origin in the center lane, score / time / lives /
overtake count back to 0, 0, 3, 0, and `gameActive` set — but the pause
flag keeps its previous value, so the session becomes Running exactly when
the pause flag was already clear (and stays Paused when restarting straight
from the post-collision GameOver state). -/
theorem C7_restart_reset (s : GameState) :
    (restartGame s).obstacles = [] ∧
    (restartGame s).player.x = 0 ∧ (restartGame s).player.y = 0 ∧
    (restartGame s).player.z = 0 ∧ (restartGame s).lane = 1 ∧
    (restartGame s).score = 0 ∧ (restartGame s).speed = 0 ∧
    (restartGame s).elapsedTime = 0 ∧ (restartGame s).lastObstacleTime = 0 ∧
    (restartGame s).lives = initialLives ∧ (restartGame s).carsOvertaken = 0 ∧
    (restartGame s).gameActive = true ∧
    (restartGame s).isPaused = s.isPaused ∧
    (sessionState (restartGame s) = SessionState.Running ↔ s.isPaused = false) := by
  refine ⟨rfl, rfl, rfl, rfl, rfl, rfl, rfl, rfl, rfl, rfl, rfl, rfl, rfl, ?_⟩
  unfold sessionState restartGame startGame
  cases h : s.isPaused <;> simp [h]

/-! ### Claim C8 -/

/-- C8: a jump started while not jumping, integrated by the per-frame
explicit Euler step with the max-height soft cap, returns to exactly 0
within 34 frames, at which point the vertical velocity is 0 and the jump
flag is cleared. -/
theorem C8_jump_terminates (j : JumpState) (h : j.isJumping = false) :
    jumpTick^[34] (startJump j) = ⟨false, 0, 0⟩ := by
  have h1 : startJump j = ⟨true, 0, jumpInitialVelocity⟩ := by
    simp [startJump, h]
  rw [h1]
  norm_num [Function.iterate_succ_apply, jumpTick, maxJumpHeight, jumpGravity,
    jumpInitialVelocity]

/-- Witness for C8 from a grounded state with stale height and velocity. -/
theorem C8_jump_terminates_witness :
    jumpTick^[34] (startJump ⟨false, 3, 7⟩) = ⟨false, 0, 0⟩ :=
  C8_jump_terminates ⟨false, 3, 7⟩ rfl

/-! ### Claim C9 -/

/-- C9 (counterexample): a spawned car, barrier and rocket all carry the
same collision extents (width 3, height 5) — the extents are not
category-specific. -/
theorem C9_counterexample :
    (spawnObstacle 0 0).isCar = true ∧
    (spawnObstacle 0 (3 / 4)).isBarrier = true ∧
    (spawnObstacle 0 (9 / 10)).isRocket = true ∧
    (spawnObstacle 0 0).width = (spawnObstacle 0 (3 / 4)).width ∧
    (spawnObstacle 0 0).height = (spawnObstacle 0 (3 / 4)).height ∧
    (spawnObstacle 0 (3 / 4)).width = (spawnObstacle 0 (9 / 10)).width ∧
    (spawnObstacle 0 (3 / 4)).height = (spawnObstacle 0 (9 / 10)).height := by
  refine ⟨?_, ?_, ?_, ?_, ?_, ?_, ?_⟩ <;> norm_num [spawnObstacle]

/-- C9 (amended): every spawned obstacle is assigned the same bounding
extents (width 3, height 5) regardless of category, has its overtaken flag
(effectively) initialized to false, carries exactly one category flag, and
is placed at z = +roadLength/2 at the lateral offset of the chosen lane
with fixed height y = 1. -/
theorem C9_spawn_fields (laneRoll : ℕ) (typeRoll : ℚ) :
    (spawnObstacle laneRoll typeRoll).width = 3 ∧
    (spawnObstacle laneRoll typeRoll).height = 5 ∧
    (spawnObstacle laneRoll typeRoll).overtaken = false ∧
    (spawnObstacle laneRoll typeRoll).z = roadLength / 2 ∧
    (spawnObstacle laneRoll typeRoll).x = lanePos laneRoll ∧
    (spawnObstacle laneRoll typeRoll).y = 1 ∧
    ((spawnObstacle laneRoll typeRoll).isCar ||
      (spawnObstacle laneRoll typeRoll).isBarrier ||
      (spawnObstacle laneRoll typeRoll).isRocket) = true := by
  by_cases h1 : typeRoll < 7 / 10
  · simp [spawnObstacle, h1]
  · by_cases h2 : typeRoll < 85 / 100
    · simp [spawnObstacle, h1, h2]
    · simp [spawnObstacle, h1, h2]

/-! ### Claim C10 -/

/-- C10: a frame processed while the pause flag is set increments
elapsedTime by dt and changes nothing else — speed, score, lives, lane,
overtake count, jump state, player position, the obstacle set, all scenery
z coordinates and the spawn-timer baseline are untouched. -/
theorem C10_paused_frame (s : GameState) (dt : ℚ) (laneRoll : ℕ) (typeRoll : ℚ)
    (hp : s.isPaused = true) :
    updateGame dt laneRoll typeRoll s = { s with elapsedTime := s.elapsedTime + dt } := by
  simp [updateGame, hp]

/-- Witness for C10 on a concrete paused state. -/
theorem C10_paused_frame_witness :
    updateGame 1 0 0 pausedState =
      { pausedState with elapsedTime := pausedState.elapsedTime + 1 } :=
  C10_paused_frame pausedState 1 0 0 rfl

end Outrun
